import Mathlib

/-!
# Verification of the Boldfit Sentinel Agent decision logic

Shallow embedding of the two source files `boldfit_app.py` (Streamlit UI
variant) and `sentinel_groq.py` (console variant).  Both variants implement
the same three tools over an in-memory product table:

* `analyze_inventory_risk` — computes `days_remaining = current_stock /
  daily_burn_rate` per row, filters rows with `days_remaining <= threshold`,
  and returns either the healthy-sentinel string or the at-risk rows.
* `check_competitor_pricing` — a substring-matched mock price.
* `send_restock_alert` — renders the three inputs and returns a fixed
  acknowledgment string.

Modelling conventions:

* pandas float64 division on the integer columns is modelled as exact
  rational division when the divisor is nonzero; IEEE division by zero is
  modelled explicitly (`posInf` / `negInf` / `nan`), since pandas raises no
  exception there and the comparison semantics of the special values
  (`inf <= t` false, `-inf <= t` true, `nan <= t` false) decides which rows
  the filter keeps.
* the UI variant's analyzer works on a `.copy()` of the global dataframe, so
  it is modelled as a state-passing function that returns the table
  unchanged; the console variant assigns `df['days_remaining'] = ...` on the
  shared global dataframe, so its state carries an optional persisted
  `days_remaining` column.
* the external language-model call is opaque (network + third-party
  library); where a claim is about the script's handling of its failure, the
  call's outcome is a parameter of type `Except String String`.
-/

/-- One row of the product table (`INITIAL_DATA_MOCK` columns in
`boldfit_app.py`; `sentinel_groq.py` adds id/email columns that no logic
reads, so they are omitted).  `lead_time_days` is informational only. -/
structure Product where
  product_name : String
  current_stock : Int
  daily_burn_rate : Int
  lead_time_days : Int
  current_price : ℚ
deriving Repr, DecidableEq

/-- Value of the derived `days_remaining` column: an exact rational for a
nonzero burn rate, and the IEEE-754 special values produced by pandas float
division when the burn rate is zero. -/
inductive DaysVal where
  | fin (q : ℚ)
  | posInf
  | negInf
  | nan
deriving Repr, DecidableEq

/-- Pandas float division `current_stock / daily_burn_rate` as the source computes it:
exact quotient for a nonzero divisor (idealising float64 as ℚ), and for a
zero divisor `+inf` / `-inf` / `NaN` according to the sign of the stock. -/
def daysRemaining (stock burn : Int) : DaysVal :=
  if burn = 0 then
    if 0 < stock then .posInf
    else if stock < 0 then .negInf
    else .nan
  else .fin ((stock : ℚ) / (burn : ℚ))

/-- The comparison `days_remaining <= threshold` used by the row filter,
with IEEE semantics on the special values: `inf <= t` and `nan <= t` are
false, `-inf <= t` is true. -/
def DaysVal.le (d : DaysVal) (t : ℚ) : Bool :=
  match d with
  | .fin q => decide (q ≤ t)
  | .posInf => false
  | .negInf => true
  | .nan => false

/-- A serialized at-risk record: exactly the five columns selected by
`urgent_items[['product_name', 'current_stock', 'daily_burn_rate',
'days_remaining', 'current_price']]`. -/
structure RiskRecord where
  product_name : String
  current_stock : Int
  daily_burn_rate : Int
  days_remaining : DaysVal
  current_price : ℚ
deriving Repr, DecidableEq

/-- Annotate a row with its computed `days_remaining` and project the five
serialized columns. -/
def toRiskRecord (p : Product) : RiskRecord :=
  { product_name := p.product_name
    current_stock := p.current_stock
    daily_burn_rate := p.daily_burn_rate
    days_remaining := daysRemaining p.current_stock p.daily_burn_rate
    current_price := p.current_price }

/-- The selection `urgent_items = df[df['days_remaining'] <= threshold_days]`, projected to
the five serialized columns, in table order. -/
def urgentItems (df : List Product) (threshold_days : Int) : List RiskRecord :=
  (df.map toRiskRecord).filter (fun r => r.days_remaining.le (threshold_days : ℚ))

/-- The healthy-sentinel string returned when no row is at risk. -/
def healthySentinel : String := "All stock levels are healthy."

/-- The default of the `threshold_days: int = 10` tool parameter. -/
def defaultThresholdDays : Int := 10

/-- Result shape of the analyzer: either the sentinel string or the
JSON-serialized list of at-risk records. -/
inductive AnalyzeResult where
  | healthy (msg : String)
  | atRisk (records : List RiskRecord)
deriving Repr, DecidableEq

/-- Tool `analyze_inventory_risk` of `boldfit_app.py`: works on
`df_current = GLOBAL_DF.copy()`, so the global table is returned unchanged
alongside the result. -/
def analyze_inventory_risk_app (threshold_days : Int) (df : List Product) :
    List Product × AnalyzeResult :=
  let urgent := urgentItems df threshold_days
  (df, if urgent.isEmpty then .healthy healthySentinel else .atRisk urgent)

/-- Tool `analyze_inventory_risk` of `boldfit_app.py` invoked without a threshold
argument. -/
def analyze_inventory_risk_app_default (df : List Product) :
    List Product × AnalyzeResult :=
  analyze_inventory_risk_app defaultThresholdDays df

/-- The global dataframe of `sentinel_groq.py`: the base rows plus the
`days_remaining` column once `df['days_remaining'] = ...` has assigned it. -/
structure GroqDf where
  rows : List Product
  days_col : Option (List DaysVal)
deriving Repr, DecidableEq

/-- Tool `analyze_inventory_risk` of `sentinel_groq.py`: assigns the computed
`days_remaining` column into the shared global dataframe (persisting it),
then filters and serializes exactly as the UI variant does. -/
def analyze_inventory_risk_groq (threshold_days : Int) (df : GroqDf) :
    GroqDf × AnalyzeResult :=
  let days := df.rows.map (fun p => daysRemaining p.current_stock p.daily_burn_rate)
  let urgent := urgentItems df.rows threshold_days
  (⟨df.rows, some days⟩,
   if urgent.isEmpty then .healthy healthySentinel else .atRisk urgent)

/-- Tool `analyze_inventory_risk` of `sentinel_groq.py` invoked without a
threshold argument. -/
def analyze_inventory_risk_groq_default (df : GroqDf) : GroqDf × AnalyzeResult :=
  analyze_inventory_risk_groq defaultThresholdDays df

/-- The initial mock table shared by both variants (`INITIAL_DATA_MOCK` /
`load_mock_database`). -/
def INITIAL_DATA_MOCK : List Product :=
  [⟨"Pro Yoga Mat", 15, 3, 7, 15⟩,
   ⟨"Whey Protein (Chocolate)", 500, 10, 14, 4999/100⟩,
   ⟨"Resistance Bands Set", 45, 2, 5, 25⟩]

/-- Python substring membership `needle in hay`. -/
def strContainsSub (hay needle : String) : Bool :=
  decide (needle.toList <:+: hay.toList)

/-- The `competitor_price` value chosen by `check_competitor_pricing`
(identical in both variants): the `"Yoga Mat"` test runs first, then
`"Whey Protein"`, then the fallback.  The function returns this price
interpolated (via `:.2f`) into the fixed message
`The average competitor price for {name} is ${price}.`; the price decimal
itself carries all the decision logic, so the embedding exposes it. -/
def competitorPrice (product_name : String) : ℚ :=
  if strContainsSub product_name "Yoga Mat" then 1999/100
  else if strContainsSub product_name "Whey Protein" then 45
  else 28

/-- Tool `send_restock_alert` of `sentinel_groq.py`: the text printed to the
console (newline-joined), paired with the returned acknowledgment string. -/
def send_restock_alert_groq (product_name : String) (quantity : Int)
    (reason : String) : String × String :=
  ("\n🚨 [SLACK ALERT SENT]\n" ++ "To: #supply-chain-ops\n"
     ++ "Message: URGENT REORDER NEEDED for " ++ product_name ++ ".\n"
     ++ "Recommended Qty: " ++ toString quantity ++ "\n"
     ++ "AI Reasoning: " ++ reason,
   "Alert sent successfully.")

/-- Tool `send_restock_alert` of `boldfit_app.py`: the text written to the
bordered Streamlit container (newline-joined), paired with the returned
acknowledgment string. -/
def send_restock_alert_app (product_name : String) (quantity : Int)
    (reason : String) : String × String :=
  ("🚨 URGENT ALERT: REORDER NEEDED\n"
     ++ "**Product:** `" ++ product_name ++ "`\n"
     ++ "**Recommended Quantity:** `" ++ toString quantity ++ " units`\n"
     ++ "**AI Justification:** " ++ reason,
   "Alert displayed successfully on dashboard.")

/-- The `__main__` block of `sentinel_groq.py`: print the banner, then
`try: agent_executor.invoke(...)` with a single `except` that prints
`Error: {e}`.  The opaque external model call is a parameter: `.error e`
means the invocation raised an exception rendering as `e`.  The value is the
sequence of lines the script itself prints (the agent's own verbose output
is out of scope). -/
def main_groq (invokeResult : Except String String) : List String :=
  "--- STARTING BOLDFIT SENTINEL ANALYST (Price-Aware) ---" ::
    (match invokeResult with
     | .ok _ => []
     | .error e => ["Error: " ++ e])

/-- Function `run_agent` of `boldfit_app.py`: a `try` guards only the `ChatGroq`
client construction (failure → `st.error` message and `st.stop()`, so the
run ends with that message and the model is never invoked); the
`agent_executor.invoke` call afterwards is unguarded, so an exception there
escapes `run_agent` (modelled as `.error`).  On success the script shows the
completion banner and the final summary. -/
def run_agent_app (initResult : Except String Unit)
    (invokeResult : Except String String) : Except String (List String) :=
  match initResult with
  | .error e =>
      .ok ["Failed to initialize Groq: " ++ e
             ++ ". Check your API key in Streamlit \tSecrets."]
  | .ok _ =>
      match invokeResult with
      | .error e => .error e
      | .ok out => .ok ["Analysis Complete!", "---",
                        "**Final Agent Summary:** " ++ out]

/-! ## Helper lemmas -/

/-- Every string is a substring of itself. -/
theorem strContainsSub_refl (x : String) : strContainsSub x x = true := by
  apply decide_eq_true
  exact ⟨[], [], by simp⟩

/-- Substring membership survives appending on the right. -/
theorem strContainsSub_append_right (hay b x : String)
    (h : strContainsSub hay x = true) : strContainsSub (hay ++ b) x = true := by
  apply decide_eq_true
  obtain ⟨s, t, hst⟩ := of_decide_eq_true h
  refine ⟨s, t ++ b.toList, ?_⟩
  simp only [String.toList] at hst ⊢
  simp [String.data_append, ← hst]

/-- Substring membership survives appending on the left. -/
theorem strContainsSub_append_left (a hay x : String)
    (h : strContainsSub hay x = true) : strContainsSub (a ++ hay) x = true := by
  apply decide_eq_true
  obtain ⟨s, t, hst⟩ := of_decide_eq_true h
  refine ⟨a.toList ++ s, t, ?_⟩
  simp only [String.toList] at hst ⊢
  simp [String.data_append, ← hst]

/-- A record is selected as urgent exactly when it is the annotated
projection of some table row whose computed days-remaining passes the
threshold comparison. -/
theorem mem_urgentItems (df : List Product) (th : Int) (r : RiskRecord) :
    r ∈ urgentItems df th ↔
      ∃ p ∈ df, toRiskRecord p = r
        ∧ (daysRemaining p.current_stock p.daily_burn_rate).le (th : ℚ) = true := by
  simp only [urgentItems, List.mem_filter, List.mem_map]
  constructor
  · rintro ⟨⟨p, hp, rfl⟩, hle⟩
    exact ⟨p, hp, rfl, hle⟩
  · rintro ⟨p, hp, rfl, hle⟩
    exact ⟨⟨p, hp, rfl⟩, hle⟩

/-- The urgent selection is empty exactly when no row passes the threshold
comparison. -/
theorem urgentItems_eq_nil_iff (df : List Product) (th : Int) :
    urgentItems df th = [] ↔
      ∀ p ∈ df, (daysRemaining p.current_stock p.daily_burn_rate).le (th : ℚ) = false := by
  simp only [urgentItems, List.filter_eq_nil_iff, List.mem_map]
  constructor
  · intro h p hp
    have := h (toRiskRecord p) ⟨p, hp, rfl⟩
    simpa [toRiskRecord] using this
  · rintro h r ⟨p, hp, rfl⟩
    simp [toRiskRecord, h p hp]

/-! ## Claim theorems -/

/-- C1: for every product table and every threshold, the risk analyzer
returns the healthy sentinel string iff no row's computed days-remaining
passes the `<= threshold` comparison (in particular on the empty table);
otherwise it returns exactly the at-risk records, each carrying the five
serialized fields (a record is at risk iff it is the annotated projection of
a table row passing the comparison); the threshold defaults to 10; and both
source variants produce the same analysis result on the same rows. -/
theorem c1_risk_analyzer_spec (df : List Product) (th : Int) :
    ((analyze_inventory_risk_app th df).snd = .healthy healthySentinel
       ↔ ∀ p ∈ df, (daysRemaining p.current_stock p.daily_burn_rate).le (th : ℚ) = false)
    ∧ ((¬ ∀ p ∈ df, (daysRemaining p.current_stock p.daily_burn_rate).le (th : ℚ) = false) →
        (analyze_inventory_risk_app th df).snd = .atRisk (urgentItems df th))
    ∧ (∀ r, r ∈ urgentItems df th ↔
        ∃ p ∈ df, toRiskRecord p = r
          ∧ (daysRemaining p.current_stock p.daily_burn_rate).le (th : ℚ) = true)
    ∧ (analyze_inventory_risk_app th []).snd = .healthy healthySentinel
    ∧ analyze_inventory_risk_app_default df = analyze_inventory_risk_app 10 df
    ∧ (∀ g : GroqDf, (analyze_inventory_risk_groq th g).snd
          = (analyze_inventory_risk_app th g.rows).snd)
    ∧ analyze_inventory_risk_groq_default ⟨df, none⟩
        = analyze_inventory_risk_groq 10 ⟨df, none⟩ := by
  have hiff := urgentItems_eq_nil_iff df th
  refine ⟨?_, ?_, mem_urgentItems df th, rfl, rfl, fun g => rfl, rfl⟩
  · by_cases he : (urgentItems df th).isEmpty
    · simp only [analyze_inventory_risk_app, he, if_true]
      simp only [List.isEmpty_iff] at he
      simpa using hiff.mp he
    · simp only [analyze_inventory_risk_app, he, if_false]
      constructor
      · intro h; exact absurd h (by simp)
      · intro h
        exact absurd (List.isEmpty_iff.mpr (hiff.mpr h)) he
  · intro h
    have : urgentItems df th ≠ [] := fun hnil => h (hiff.mp hnil)
    have he : (urgentItems df th).isEmpty = false := by
      simpa [List.isEmpty_iff] using this
    simp [analyze_inventory_risk_app, he]

/-- Witness for C1 on a one-row table whose row passes the threshold
comparison: the at-risk branch of the theorem applies. -/
theorem c1_witness :
    (¬ ∀ p ∈ [(⟨"Expired promo", -5, 0, 0, 0⟩ : Product)],
        (daysRemaining p.current_stock p.daily_burn_rate).le ((10 : Int) : ℚ) = false)
    ∧ (analyze_inventory_risk_app 10 [(⟨"Expired promo", -5, 0, 0, 0⟩ : Product)]).snd
        = .atRisk (urgentItems [(⟨"Expired promo", -5, 0, 0, 0⟩ : Product)] 10) :=
  ⟨by decide, (c1_risk_analyzer_spec [⟨"Expired promo", -5, 0, 0, 0⟩] 10).2.1 (by decide)⟩

/-- C3: for every product with positive burn rate the analyzer's computed
days-remaining is exactly stock divided by burn rate; in particular
stock 15 with burn 3 gives 5, which passes the threshold-10 comparison
(at risk), and stock 500 with burn 10 gives 50, which does not (healthy). -/
theorem c3_days_remaining_exact (p : Product) (h : 0 < p.daily_burn_rate) :
    (toRiskRecord p).days_remaining
      = .fin ((p.current_stock : ℚ) / (p.daily_burn_rate : ℚ))
    ∧ daysRemaining 15 3 = .fin 5
    ∧ (daysRemaining 15 3).le ((10 : Int) : ℚ) = true
    ∧ daysRemaining 500 10 = .fin 50
    ∧ (daysRemaining 500 10).le ((10 : Int) : ℚ) = false := by
  refine ⟨?_, ?_, ?_, ?_, ?_⟩
  · have hne : p.daily_burn_rate ≠ 0 := by omega
    simp only [toRiskRecord, daysRemaining, if_neg hne]
  · norm_num [daysRemaining]
  · norm_num [daysRemaining, DaysVal.le]
  · norm_num [daysRemaining]
  · norm_num [daysRemaining, DaysVal.le]

/-- Witness for C3 at the mock Yoga Mat row (stock 15, burn 3). -/
theorem c3_witness :
    (0 : Int) < 3
    ∧ ((toRiskRecord ⟨"Pro Yoga Mat", 15, 3, 7, 15⟩).days_remaining
        = .fin (((15 : Int) : ℚ) / ((3 : Int) : ℚ))
      ∧ daysRemaining 15 3 = .fin 5
      ∧ (daysRemaining 15 3).le ((10 : Int) : ℚ) = true
      ∧ daysRemaining 500 10 = .fin 50
      ∧ (daysRemaining 500 10).le ((10 : Int) : ℚ) = false) :=
  ⟨by decide, c3_days_remaining_exact ⟨"Pro Yoga Mat", 15, 3, 7, 15⟩ (by decide)⟩

/-- C6: invoking the risk analyzer twice in succession with the same
threshold, with no table edit in between, yields identical output: the UI
variant does not change its table at all, and although the console variant
persists the `days_remaining` column on the first call, the second call on
that mutated state produces the same result. -/
theorem c6_idempotent (dfA : List Product) (dfG : GroqDf) (th : Int) :
    analyze_inventory_risk_app th (analyze_inventory_risk_app th dfA).fst
      = analyze_inventory_risk_app th dfA
    ∧ (analyze_inventory_risk_groq th (analyze_inventory_risk_groq th dfG).fst).snd
      = (analyze_inventory_risk_groq th dfG).snd :=
  ⟨rfl, rfl⟩

/-- C4 counterexample: on the mock table the console variant's analyzer does
NOT leave the global dataframe unchanged — it persists the computed
`days_remaining` column into it (`df['days_remaining'] = ...` assigns the
shared global `df`, unlike the UI variant's `.copy()`). -/
theorem c4_counterexample :
    (analyze_inventory_risk_groq 10 ⟨INITIAL_DATA_MOCK, none⟩).fst
      ≠ ⟨INITIAL_DATA_MOCK, none⟩ := by
  simp [analyze_inventory_risk_groq]

/-- C4 amended: the UI variant's analyzer works on a copy and returns the
table unchanged; the console variant's analyzer leaves the original rows
unchanged but persists the computed `days_remaining` column into the shared
dataframe. -/
theorem c4_amended_state (dfA : List Product) (dfG : GroqDf) (th : Int) :
    (analyze_inventory_risk_app th dfA).fst = dfA
    ∧ (analyze_inventory_risk_groq th dfG).fst.rows = dfG.rows
    ∧ (analyze_inventory_risk_groq th dfG).fst.days_col
        = some (dfG.rows.map (fun p => daysRemaining p.current_stock p.daily_burn_rate)) :=
  ⟨rfl, rfl, rfl⟩

/-- C5 counterexample: a zero burn rate is not an uncaught failure — pandas
division by zero yields `inf`, and on a table whose only row has stock 15
and burn rate 0 the analyzer completes normally, returning the healthy
sentinel. -/
theorem c5_counterexample :
    daysRemaining 15 0 = .posInf
    ∧ (analyze_inventory_risk_app 10 [(⟨"Pro Yoga Mat", 15, 0, 7, 15⟩ : Product)]).snd
        = .healthy healthySentinel := by
  decide

/-- C5 amended: invoking the risk analyzer on a table containing a product
with zero consumption rate raises nothing: the division evaluates to `+inf`
for positive stock, `NaN` for zero stock and `-inf` for negative stock, and
the analyzer completes with one of its two normal result shapes. -/
theorem c5_amended_div_zero_total (df : List Product) (th : Int) (p : Product)
    (_hp : p ∈ df) (hb : p.daily_burn_rate = 0) :
    (0 < p.current_stock → daysRemaining p.current_stock p.daily_burn_rate = .posInf)
    ∧ (p.current_stock = 0 → daysRemaining p.current_stock p.daily_burn_rate = .nan)
    ∧ (p.current_stock < 0 → daysRemaining p.current_stock p.daily_burn_rate = .negInf)
    ∧ ((analyze_inventory_risk_app th df).snd = .healthy healthySentinel
       ∨ (analyze_inventory_risk_app th df).snd = .atRisk (urgentItems df th)) := by
  refine ⟨?_, ?_, ?_, ?_⟩
  · intro hs; simp [daysRemaining, hb, hs]
  · intro hs; simp [daysRemaining, hb, hs]
  · intro hs
    have : ¬ (0 < p.current_stock) := by omega
    simp [daysRemaining, hb, hs, this]
  · by_cases he : (urgentItems df th).isEmpty
    · left; simp [analyze_inventory_risk_app, he]
    · right; simp [analyze_inventory_risk_app, he]

/-- Witness for C5 amended on a one-row table with stock 15 and burn 0. -/
theorem c5_witness :
    (⟨"Pro Yoga Mat", 15, 0, 7, 15⟩ : Product) ∈ [(⟨"Pro Yoga Mat", 15, 0, 7, 15⟩ : Product)]
    ∧ (0 : Int) = 0
    ∧ ((0 < (15 : Int) → daysRemaining 15 0 = .posInf)
      ∧ ((15 : Int) = 0 → daysRemaining 15 0 = .nan)
      ∧ ((15 : Int) < 0 → daysRemaining 15 0 = .negInf)
      ∧ ((analyze_inventory_risk_app 10 [(⟨"Pro Yoga Mat", 15, 0, 7, 15⟩ : Product)]).snd
            = .healthy healthySentinel
         ∨ (analyze_inventory_risk_app 10 [(⟨"Pro Yoga Mat", 15, 0, 7, 15⟩ : Product)]).snd
            = .atRisk (urgentItems [(⟨"Pro Yoga Mat", 15, 0, 7, 15⟩ : Product)] 10))) :=
  ⟨by decide, rfl,
   c5_amended_div_zero_total [⟨"Pro Yoga Mat", 15, 0, 7, 15⟩] 10
     ⟨"Pro Yoga Mat", 15, 0, 7, 15⟩ (by decide) rfl⟩

/-- C10: a product with zero burn rate and positive stock makes the
analyzer raise nothing — its division evaluates to `+inf` — and no record
with zero burn rate and positive stock ever appears in the at-risk selection
at any threshold. -/
theorem c10_zero_burn_excluded (df : List Product) (th : Int) (p : Product)
    (_hp : p ∈ df) (hb : p.daily_burn_rate = 0) (hs : 0 < p.current_stock) :
    daysRemaining p.current_stock p.daily_burn_rate = .posInf
    ∧ ∀ r ∈ urgentItems df th, ¬(r.daily_burn_rate = 0 ∧ 0 < r.current_stock) := by
  constructor
  · simp [daysRemaining, hb, hs]
  · rintro r hr ⟨hrb, hrs⟩
    rw [mem_urgentItems] at hr
    obtain ⟨q, hq, rfl, hle⟩ := hr
    simp only [toRiskRecord] at hrb hrs
    rw [daysRemaining] at hle
    simp [hrb, hrs, DaysVal.le] at hle

/-- Witness for C10 on a one-row table with stock 15 and burn 0. -/
theorem c10_witness :
    (⟨"Pro Yoga Mat", 15, 0, 7, 15⟩ : Product) ∈ [(⟨"Pro Yoga Mat", 15, 0, 7, 15⟩ : Product)]
    ∧ (0 : Int) = 0 ∧ (0 : Int) < 15
    ∧ (daysRemaining 15 0 = .posInf
      ∧ ∀ r ∈ urgentItems [(⟨"Pro Yoga Mat", 15, 0, 7, 15⟩ : Product)] 10,
          ¬(r.daily_burn_rate = 0 ∧ 0 < r.current_stock)) :=
  ⟨by decide, rfl, by decide,
   c10_zero_burn_excluded [⟨"Pro Yoga Mat", 15, 0, 7, 15⟩] 10
     ⟨"Pro Yoga Mat", 15, 0, 7, 15⟩ (by decide) rfl (by decide)⟩

/-- C2 counterexample: the name `"Yoga Mat Whey Protein"` contains the
fragment `"Whey Protein"`, yet the oracle does not return 45.00 for it
(the `"Yoga Mat"` branch fires first and returns 19.99), refuting the
claim's unconditional `"Whey Protein"` clause. -/
theorem c2_counterexample :
    strContainsSub "Yoga Mat Whey Protein" "Whey Protein" = true
    ∧ competitorPrice "Yoga Mat Whey Protein" ≠ 45 := by
  have h : strContainsSub "Yoga Mat Whey Protein" "Yoga Mat" = true := by decide
  refine ⟨by decide, ?_⟩
  simp only [competitorPrice, h, if_true]
  norm_num

/-- C2 amended: for every input name the oracle is a pure function of
substring membership with ordered tests — a name containing `"Yoga Mat"`
yields 19.99; a name containing `"Whey Protein"` but not `"Yoga Mat"`
yields 45.00; every other name yields 28.00. -/
theorem c2_amended_price_cases (name : String) :
    (strContainsSub name "Yoga Mat" = true → competitorPrice name = 1999/100)
    ∧ (strContainsSub name "Yoga Mat" = false → strContainsSub name "Whey Protein" = true
        → competitorPrice name = 45)
    ∧ (strContainsSub name "Yoga Mat" = false → strContainsSub name "Whey Protein" = false
        → competitorPrice name = 28) :=
  ⟨fun h1 => by simp [competitorPrice, h1],
   fun h1 h2 => by simp [competitorPrice, h1, h2],
   fun h1 h2 => by simp [competitorPrice, h1, h2]⟩

/-- Witness for C2 amended at the name `"Pro Yoga Mat"`. -/
theorem c2_witness :
    strContainsSub "Pro Yoga Mat" "Yoga Mat" = true
    ∧ competitorPrice "Pro Yoga Mat" = 1999/100 :=
  ⟨by decide, (c2_amended_price_cases "Pro Yoga Mat").1 (by decide)⟩

/-- C9: every name containing both fragments gets the `"Yoga Mat"` price
19.99, because that test runs first. -/
theorem c9_yoga_mat_precedence (name : String)
    (h1 : strContainsSub name "Yoga Mat" = true)
    (_h2 : strContainsSub name "Whey Protein" = true) :
    competitorPrice name = 1999/100 := by
  simp [competitorPrice, h1]

/-- Witness for C9 at the name `"Yoga Mat Whey Protein"`. -/
theorem c9_witness :
    strContainsSub "Yoga Mat Whey Protein" "Yoga Mat" = true
    ∧ strContainsSub "Yoga Mat Whey Protein" "Whey Protein" = true
    ∧ competitorPrice "Yoga Mat Whey Protein" = 1999/100 :=
  ⟨by decide, by decide, c9_yoga_mat_precedence "Yoga Mat Whey Protein" (by decide) (by decide)⟩

/-- C7: for every product name, quantity (negative included) and
justification, both variants' alert sinks render all three inputs verbatim
inside their output text, and each returns its fixed acknowledgment string,
independent of the inputs. -/
theorem c7_alert_echo (n : String) (q : Int) (r : String) :
    strContainsSub (send_restock_alert_groq n q r).fst n = true
    ∧ strContainsSub (send_restock_alert_groq n q r).fst (toString q) = true
    ∧ strContainsSub (send_restock_alert_groq n q r).fst r = true
    ∧ strContainsSub (send_restock_alert_app n q r).fst n = true
    ∧ strContainsSub (send_restock_alert_app n q r).fst (toString q) = true
    ∧ strContainsSub (send_restock_alert_app n q r).fst r = true
    ∧ (send_restock_alert_groq n q r).snd = "Alert sent successfully."
    ∧ (send_restock_alert_app n q r).snd = "Alert displayed successfully on dashboard." := by
  refine ⟨?_, ?_, ?_, ?_, ?_, ?_, rfl, rfl⟩ <;>
  · simp only [send_restock_alert_groq, send_restock_alert_app]
    repeat
      first
        | exact strContainsSub_append_left _ _ _ (strContainsSub_refl _)
        | apply strContainsSub_append_right

/-- C8 counterexample: in the UI variant a failure of the model call itself
(for example an authentication error raised inside `agent_executor.invoke`)
is NOT caught by the script — only the client construction is inside a
`try` — so it propagates out of `run_agent` instead of being reported as a
text message. -/
theorem c8_counterexample :
    run_agent_app (.ok ()) (.error "GroqError: invalid API key")
      = .error "GroqError: invalid API key" := rfl

/-- C8 amended: in the console variant a failing model call is caught once
at the top level and reported as the single text line `Error: {e}`, after
which the run ends with no retry and no further output; in the UI variant
only the model-client construction is guarded (its failure is reported and
the run stopped before any model call), while a failure of the model call
itself propagates uncaught out of the script. -/
theorem c8_amended_error_paths (e : String) (inv : Except String String) :
    main_groq (.error e)
      = ["--- STARTING BOLDFIT SENTINEL ANALYST (Price-Aware) ---", "Error: " ++ e]
    ∧ run_agent_app (.error e) inv
      = .ok ["Failed to initialize Groq: " ++ e
               ++ ". Check your API key in Streamlit \tSecrets."]
    ∧ run_agent_app (.ok ()) (.error e) = .error e :=
  ⟨rfl, rfl, rfl⟩
